import Mathlib

/-!
Verification development for the AAMI dynamic check runner
(`scripts/node/dynamic_check.py`).

The Python source is shallowly embedded: the filesystem touched by the
script cache is an explicit record of regular files, symbolic links,
directories and executable bits; the cache-save operation
(`DynamicCheckRunner._save_check_script`) is a list of primitive
filesystem operations folded over that state; check execution
(`DynamicCheckRunner._execute_check`) is a function of the child
process outcome; and one run (`DynamicCheckRunner.run`) is a function
of an environment recording the fetch result, the per-check persist
outcome and the per-check subprocess outcome.
-/

set_option autoImplicit false

deriving instance DecidableEq for Except

namespace Aami

/-- Association-list lookup by key (first match wins), as a path-indexed
file store. -/
def lookupA (l : List (String × String)) (p : String) : Option String :=
  (l.find? (fun e => e.1 == p)).map (fun e => e.2)

/-- Association-list update: remove any entry at the key, then prepend the
new binding. -/
def setA (l : List (String × String)) (p v : String) : List (String × String) :=
  (p, v) :: l.filter (fun e => e.1 != p)

/-- Association-list removal of every entry at the key. -/
def removeA (l : List (String × String)) (p : String) : List (String × String) :=
  l.filter (fun e => e.1 != p)

/-- Insert a string into a list if not already present. -/
def insertD (l : List String) (p : String) : List String :=
  if l.contains p then l else p :: l

/-- One check definition received from the Config Server, mirroring the
`CheckInfo` dataclass of the source. -/
structure CheckInfo where
  name : String
  script_content : String
  script_hash : String
  config : List (String × String)
deriving DecidableEq, Repr

/-- Result of executing a check, mirroring the `CheckResult` dataclass of
the source. -/
structure CheckResult where
  name : String
  success : Bool
  output : String
  error : Option String
deriving DecidableEq, Repr

/-- The slice of filesystem state touched by the script cache: regular
files (path to content), symbolic links (path to target), directories,
and paths that were chmodded executable. -/
@[ext]
structure CacheFS where
  files : List (String × String)
  links : List (String × String)
  dirs : List String
  execs : List String
deriving DecidableEq, Repr

namespace CacheFS

/-- A regular file exists at the path (`Path.exists()` on a non-symlink). -/
def fileExistsB (fs : CacheFS) (p : String) : Bool :=
  (lookupA fs.files p).isSome

/-- A symbolic link exists at the path (`Path.is_symlink()`). -/
def isSymlinkB (fs : CacheFS) (p : String) : Bool :=
  (lookupA fs.links p).isSome

/-- The current pointer is observable at the path: either a symlink or a
regular file occupies it. -/
def pointerExistsB (fs : CacheFS) (p : String) : Bool :=
  fs.isSymlinkB p || fs.fileExistsB p

end CacheFS

/-- Primitive filesystem operations issued by `_save_check_script`. -/
inductive FsOp where
  | mkdirP (path : String)
  | writeFile (path : String) (content : String)
  | chmod (path : String)
  | unlink (path : String)
  | symlinkTo (path : String) (target : String)
deriving DecidableEq, Repr

/-- Effect of one primitive operation on the cache filesystem.
`unlink` removes whatever occupies the path, file or symlink, as
`Path.unlink()` does. -/
def applyOp (fs : CacheFS) : FsOp → CacheFS
  | .mkdirP p => { fs with dirs := insertD fs.dirs p }
  | .writeFile p c => { fs with files := setA fs.files p c }
  | .chmod p => { fs with execs := insertD fs.execs p }
  | .unlink p => { fs with files := removeA fs.files p, links := removeA fs.links p }
  | .symlinkTo p t => { fs with links := setA fs.links p t }

/-- Per-check script directory `check_scripts_dir / name` (paths relative
to the scripts root). -/
def scriptDirOf (name : String) : String := name

/-- Hash-versioned body path `script_dir / f"{name}_{hash}.sh"`. -/
def bodyPathOf (check : CheckInfo) : String :=
  check.name ++ "/" ++ check.name ++ "_" ++ check.script_hash ++ ".sh"

/-- Current-pointer path `script_dir / "current.sh"`. -/
def linkPathOf (name : String) : String :=
  name ++ "/current.sh"

/-- The sequence of filesystem operations performed by
`DynamicCheckRunner._save_check_script` from a given initial state:
create the script directory; if no body file exists for the hash, write
it and mark it executable; if the current pointer exists (as symlink or
as regular file), unlink it; finally create the symlink to the body. -/
def saveCheckOps (fs : CacheFS) (check : CheckInfo) : List FsOp :=
  let bp := bodyPathOf check
  let lp := linkPathOf check.name
  let s1 := applyOp fs (.mkdirP (scriptDirOf check.name))
  let wops : List FsOp :=
    if s1.fileExistsB bp then [] else [.writeFile bp check.script_content, .chmod bp]
  let s2 := wops.foldl applyOp s1
  let uops : List FsOp :=
    if s2.isSymlinkB lp then [.unlink lp]
    else if s2.fileExistsB lp then [.unlink lp]
    else []
  .mkdirP (scriptDirOf check.name) :: wops ++ uops ++ [.symlinkTo lp bp]

/-- Final state of `_save_check_script`. -/
def saveCheckScript (fs : CacheFS) (check : CheckInfo) : CacheFS :=
  (saveCheckOps fs check).foldl applyOp fs

/-- Every intermediate state of `_save_check_script`, the initial state
first and the final state last. -/
def saveCheckStates (fs : CacheFS) (check : CheckInfo) : List CacheFS :=
  (saveCheckOps fs check).scanl applyOp fs

/-- How many regular files occupy the body path for this (name, hash). -/
def countBodyFiles (fs : CacheFS) (check : CheckInfo) : Nat :=
  fs.files.countP (fun e => e.1 == bodyPathOf check)

/-- Recognizes a body write among the primitive operations. -/
def isBodyWrite : FsOp → Bool
  | .writeFile _ _ => true
  | _ => false

/-! ### Check execution (`DynamicCheckRunner._execute_check`) -/

/-- Serialization of a flat string-valued config mapping as
`json.dumps` renders it with default separators. -/
def jsonDumps (c : List (String × String)) : String :=
  "\x7b" ++
    String.intercalate ", "
      (c.map (fun e => "\"" ++ e.1 ++ "\": \"" ++ e.2 ++ "\"")) ++
  "\x7d"

/-- What is handed to the child process: its argument vector and the text
supplied on its standard input. -/
structure Invocation where
  argv : List String
  stdin : String
deriving DecidableEq, Repr

/-- The invocation built by `_execute_check`: the script path alone as
argv, the JSON-serialized config as stdin. -/
def execInvocation (scriptPath : String) (config : List (String × String)) : Invocation :=
  { argv := [scriptPath], stdin := jsonDumps config }

/-- Outcome of the child process: normal exit with code, stdout and
stderr; timeout (`subprocess.TimeoutExpired`); or any other exception
while spawning or running (`except Exception`). -/
inductive ExecOutcome where
  | exited (code : Int) (out : String) (err : String)
  | timedOut
  | spawnFailed (msg : String)
deriving DecidableEq, Repr

/-- The fixed-shape error metric `_generate_error_metric` renders for a
failed check. -/
def errorMetric (checkName : String) : String :=
  "# HELP aami_check_error Check execution error (1=error)\n" ++
  "# TYPE aami_check_error gauge\n" ++
  "aami_check_error\x7bcheck=\"" ++ checkName ++ "\"\x7d 1\n"

/-- The `CheckResult` that `_execute_check` returns for each outcome:
exit code 0 is the sole success signal; timeout carries error
`"Timeout"`; a spawn failure carries the exception text. -/
def resultOf (checkName : String) (o : ExecOutcome) : CheckResult :=
  match o with
  | .exited code out err =>
      if code == 0 then { name := checkName, success := true, output := out, error := none }
      else { name := checkName, success := false, output := out, error := some err }
  | .timedOut => { name := checkName, success := false, output := "", error := some "Timeout" }
  | .spawnFailed msg => { name := checkName, success := false, output := "", error := some msg }

/-- The content `_execute_check` leaves in the check's metric file: the
child's stdout verbatim on exit code 0, the fixed-shape error metric on
any failure. -/
def metricContentOf (checkName : String) (o : ExecOutcome) : String :=
  match o with
  | .exited code out _ => if code == 0 then out else errorMetric checkName
  | _ => errorMetric checkName

/-- One check execution: run the child on the invocation built from the
script path and config, classify the outcome, and produce the metric
file content. -/
def executeCheck (checkName scriptPath : String) (config : List (String × String))
    (proc : Invocation → ExecOutcome) : CheckResult × String :=
  let o := proc (execInvocation scriptPath config)
  (resultOf checkName o, metricContentOf checkName o)

/-! ### One run (`DynamicCheckRunner.run`) -/

/-- The six-gauge run summary written by `_write_status_metrics`. -/
structure Summary where
  fetchStatus : Nat
  total : Nat
  succCount : Nat
  failedCount : Nat
  duration : Nat
deriving DecidableEq, Repr

/-- The exact text `_write_status_metrics` renders. -/
def renderStatusMetrics (statusValue timestamp duration total succCount failedCount : Nat) :
    String :=
  "# HELP aami_check_fetch_status Check fetch status (1=success, 0=failed)\n" ++
  "# TYPE aami_check_fetch_status gauge\n" ++
  "aami_check_fetch_status " ++ toString statusValue ++ "\n\n" ++
  "# HELP aami_check_fetch_timestamp_seconds Last check fetch timestamp\n" ++
  "# TYPE aami_check_fetch_timestamp_seconds gauge\n" ++
  "aami_check_fetch_timestamp_seconds " ++ toString timestamp ++ "\n\n" ++
  "# HELP aami_check_execution_duration_seconds Check execution duration\n" ++
  "# TYPE aami_check_execution_duration_seconds gauge\n" ++
  "aami_check_execution_duration_seconds " ++ toString duration ++ "\n\n" ++
  "# HELP aami_checks_total Total number of checks configured\n" ++
  "# TYPE aami_checks_total gauge\n" ++
  "aami_checks_total " ++ toString total ++ "\n\n" ++
  "# HELP aami_checks_success Number of successful checks\n" ++
  "# TYPE aami_checks_success gauge\n" ++
  "aami_checks_success " ++ toString succCount ++ "\n\n" ++
  "# HELP aami_checks_failed Number of failed checks\n" ++
  "# TYPE aami_checks_failed gauge\n" ++
  "aami_checks_failed " ++ toString failedCount ++ "\n"

/-- File name of the aggregate status file in the textfile directory. -/
def statusFileName : String := "aami_status.prom"

/-- Environment of one run: the effective config-server URL after
`_load_config`, the fetch result (`none` models `FetchFailed`), the
persist outcome per check name (`some msg` models an uncaught `OSError`
raised by `script_file.write_text` inside `_save_check_script`), the
child-process behaviour per check name, and the observed clock values. -/
structure RunEnv where
  configServerUrl : String
  fetched : Option (List CheckInfo)
  saveError : String → Option String
  proc : String → Invocation → ExecOutcome
  duration : Nat
  timestamp : Nat

/-- Accumulator of the per-check loop inside `run`. -/
structure LoopState where
  succCount : Nat
  failedCount : Nat
  executed : List String
  writes : List (String × String)
  aborted : Option String
deriving Repr

/-- One iteration of the per-check loop of `run` once the script is
persisted: execute the check through its current pointer, publish its
metric file, and count the result. -/
def runLoopStep (env : RunEnv) (check : CheckInfo) (st : LoopState) : LoopState :=
  let pr := executeCheck check.name (linkPathOf check.name) check.config
    (env.proc check.name)
  { succCount := st.succCount + (if pr.1.success then 1 else 0)
    failedCount := st.failedCount + (if pr.1.success then 0 else 1)
    executed := st.executed ++ [check.name]
    writes := setA st.writes (check.name ++ ".prom") pr.2
    aborted := none }

/-- The per-check loop of `run`: for each fetched check, persist its
script (an uncaught persist error aborts the loop with nothing else
done for that or any later check), then execute and record it. -/
def runLoop (env : RunEnv) : List CheckInfo → LoopState → LoopState
  | [], st => st
  | check :: rest, st =>
      match env.saveError check.name with
      | some msg => { st with aborted := some msg }
      | none => runLoop env rest (runLoopStep env check st)

/-- Observable outcome of one invocation of `run`: the Python-level
result (`Except.error` models an exception escaping `run`), the
published summary if any, which checks were executed, the final metric
files, and whether a fetch was attempted. -/
structure RunOutput where
  exitResult : Except String Nat
  summary : Option Summary
  executedChecks : List String
  metricFiles : List (String × String)
  fetchAttempted : Bool
deriving DecidableEq, Repr

/-- `DynamicCheckRunner.run`: missing URL publishes an all-zero summary
and returns 1 without fetching; a failed fetch publishes an all-zero
summary and returns 1; otherwise every check is processed in order and
the aggregate summary is published, returning 0. An uncaught persist
error aborts the run before the summary is written. -/
def run (env : RunEnv) : RunOutput :=
  if env.configServerUrl == "" then
    { exitResult := .ok 1
      summary := some ⟨0, 0, 0, 0, 0⟩
      executedChecks := []
      metricFiles := [(statusFileName, renderStatusMetrics 0 env.timestamp 0 0 0 0)]
      fetchAttempted := false }
  else
    match env.fetched with
    | none =>
        { exitResult := .ok 1
          summary := some ⟨0, 0, 0, 0, env.duration⟩
          executedChecks := []
          metricFiles := [(statusFileName, renderStatusMetrics 0 env.timestamp env.duration 0 0 0)]
          fetchAttempted := true }
    | some checks =>
        let st := runLoop env checks ⟨0, 0, [], [], none⟩
        match st.aborted with
        | some msg =>
            { exitResult := .error msg
              summary := none
              executedChecks := st.executed
              metricFiles := st.writes
              fetchAttempted := true }
        | none =>
            { exitResult := .ok 0
              summary := some ⟨1, checks.length, st.succCount, st.failedCount, env.duration⟩
              executedChecks := st.executed
              metricFiles := setA st.writes statusFileName
                (renderStatusMetrics 1 env.timestamp env.duration checks.length
                  st.succCount st.failedCount)
              fetchAttempted := true }

/-- Exit status of the whole process: `sys.exit(runner.run())` on normal
return, 1 when an exception escapes (the interpreter terminates with a
traceback and status 1). -/
def processExit (r : RunOutput) : Nat :=
  match r.exitResult with
  | .ok n => n
  | .error _ => 1

/-- Whether the check succeeds in this environment, as `run` classifies
it. -/
def checkSucceeds (env : RunEnv) (check : CheckInfo) : Bool :=
  (executeCheck check.name (linkPathOf check.name) check.config (env.proc check.name)).1.success

/-! ### Fetch parsing (`DynamicCheckRunner._fetch_effective_checks`) -/

/-- One record of the fetched JSON payload: each field may be missing
(`item.get` returning `None`). A present-but-empty `config` behaves
like a missing one under the source's `or {}`. -/
structure RawItem where
  name : Option String
  script_content : Option String
  script_hash : Option String
  config : Option (List (String × String))
deriving DecidableEq, Repr

/-- Defensive defaults applied per record: missing `name`,
`script_content` and `script_hash` become empty strings
(`item.get(key, "")`), and a missing or falsy `config` becomes the
empty mapping (`item.get("config") or {}`). -/
def parseCheckItem (item : RawItem) : CheckInfo :=
  { name := item.name.getD ""
    script_content := item.script_content.getD ""
    script_hash := item.script_hash.getD ""
    config :=
      match item.config with
      | none => []
      | some c => if c.isEmpty then [] else c }

/-- The fetcher converts every record of a successfully parsed payload,
rejecting none. -/
def fetchParseChecks (items : List RawItem) : List CheckInfo :=
  items.map parseCheckItem

/-! ### Configuration loading (`DynamicCheckRunner._load_config`) -/

/-- Double-quote character. -/
def dquote : Char := Char.ofNat 34

/-- Single-quote character. -/
def squote : Char := Char.ofNat 39

/-- Drop matching characters from the right end of a character list. -/
def dropRightWhileL (p : Char → Bool) (l : List Char) : List Char :=
  (l.reverse.dropWhile p).reverse

/-- Python `str.strip()`: remove whitespace from both ends. -/
def trimL (l : List Char) : List Char :=
  dropRightWhileL Char.isWhitespace (l.dropWhile Char.isWhitespace)

/-- Python `str.strip(c)`: remove the character from both ends. -/
def stripBothL (c : Char) (l : List Char) : List Char :=
  dropRightWhileL (fun x => x == c) (l.dropWhile (fun x => x == c))

/-- Everything after the first occurrence of the character, as
`str.split(c, 1)[1]` yields when the character occurs. -/
def afterFirstChar (c : Char) : List Char → Option (List Char)
  | [] => none
  | x :: xs => if x == c then some xs else afterFirstChar c xs

/-- One line of the config file: if, once stripped, it starts with
`AAMI_CONFIG_SERVER_URL=`, the value is everything after the first `=`,
with surrounding double then single quotes stripped. -/
def parseConfigLine (line : String) : Option String :=
  let t := trimL line.data
  if ("AAMI_CONFIG_SERVER_URL=").data.isPrefixOf t then
    match afterFirstChar '=' t with
    | some rest => some ⟨stripBothL squote (stripBothL dquote rest)⟩
    | none => none
  else none

/-- `_load_config`: keep a URL given by flag or environment; otherwise
take the first matching line of the config file; otherwise the URL
stays empty. -/
def loadConfig (givenUrl : String) (fileLines : List String) : String :=
  if givenUrl != "" then givenUrl
  else
    match fileLines.findSome? parseConfigLine with
    | some v => v
    | none => ""

/-! ### Concrete fixtures used by witnesses and counterexamples -/

/-- A check whose execution the fixtures let succeed. -/
def chkAlpha : CheckInfo := ⟨"alpha", "echo up", "h1", [("k", "v")]⟩

/-- A check whose execution the fixtures let fail. -/
def chkBeta : CheckInfo := ⟨"beta", "echo down", "h2", []⟩

/-- A check targeting the `chk` cache directory of `fsWithPointer`. -/
def chkGamma : CheckInfo := ⟨"chk", "new body", "h1", []⟩

/-- An empty cache filesystem. -/
def fsEmpty : CacheFS := ⟨[], [], [], []⟩

/-- A cache filesystem where check `chk` already has a cached body and a
current pointer. -/
def fsWithPointer : CacheFS :=
  ⟨[("chk/chk_h0.sh", "old")], [("chk/current.sh", "chk/chk_h0.sh")],
    ["chk"], ["chk/chk_h0.sh"]⟩

/-- Child behaviour that makes every check exit 0. -/
def procAllOk : String → Invocation → ExecOutcome := fun _ _ => .exited 0 "up 1\n" ""

/-- A run whose fetch fails. -/
def envFetchFail : RunEnv := ⟨"http://cs:8080", none, fun _ => none, procAllOk, 7, 100⟩

/-- A run that fetches two checks and hits a disk write error while
persisting the first one's script. -/
def envPersistFail : RunEnv :=
  ⟨"http://cs:8080", some [chkAlpha, chkBeta],
    fun n => if n == "alpha" then some "disk full" else none, procAllOk, 7, 100⟩

/-- A run with two checks: `alpha` exits 0, `beta` exits 2. -/
def envTwoChecks : RunEnv :=
  ⟨"http://cs:8080", some [chkAlpha, chkBeta], fun _ => none,
    fun n _ => if n == "alpha" then .exited 0 "up 1\n" "" else .exited 2 "garbage" "boom",
    7, 100⟩

/-- A run started with no config-server URL anywhere. -/
def envNoUrl : RunEnv := ⟨loadConfig "" [], none, fun _ => none, procAllOk, 3, 50⟩

/-! ### Association-list lemmas -/

theorem setA_eq_cons_removeA (l : List (String × String)) (p v : String) :
    setA l p v = (p, v) :: removeA l p := rfl

theorem find?_key_filter_ne (l : List (String × String)) (p q : String) (h : q ≠ p) :
    (l.filter (fun e => e.1 != p)).find? (fun e => e.1 == q) =
      l.find? (fun e => e.1 == q) := by
  induction l with
  | nil => rfl
  | cons e l ih =>
    by_cases he : e.1 = p
    · have hf : ¬ ((fun (x : String × String) => x.1 != p) e) = true := by simp [he]
      have hq : ¬ ((fun (x : String × String) => x.1 == q) e) = true := by simp [he, Ne.symm h]
      rw [@List.filter_cons_of_neg _ (fun x => x.1 != p) e l hf, ih,
        @List.find?_cons_of_neg _ (fun x => x.1 == q) e l hq]
    · have hf : ((fun (x : String × String) => x.1 != p) e) = true := by simp [he]
      rw [@List.filter_cons_of_pos _ (fun x => x.1 != p) e l hf]
      by_cases heq : e.1 = q
      · have hq : ((fun (x : String × String) => x.1 == q) e) = true := by simp [heq]
        rw [@List.find?_cons_of_pos _ (fun x => x.1 == q) e _ hq,
          @List.find?_cons_of_pos _ (fun x => x.1 == q) e l hq]
      · have hq : ¬ ((fun (x : String × String) => x.1 == q) e) = true := by simp [heq]
        rw [@List.find?_cons_of_neg _ (fun x => x.1 == q) e _ hq,
          @List.find?_cons_of_neg _ (fun x => x.1 == q) e l hq, ih]

theorem lookupA_setA_self (l : List (String × String)) (p v : String) :
    lookupA (setA l p v) p = some v := by
  unfold lookupA setA
  have hq : ((fun (x : String × String) => x.1 == p) (p, v)) = true := by simp
  rw [@List.find?_cons_of_pos _ (fun x => x.1 == p) (p, v) _ hq]
  rfl

theorem lookupA_setA_ne (l : List (String × String)) (p v q : String) (h : q ≠ p) :
    lookupA (setA l p v) q = lookupA l q := by
  unfold lookupA setA
  have hq : ¬ ((fun (x : String × String) => x.1 == q) (p, v)) = true := by simp [Ne.symm h]
  rw [@List.find?_cons_of_neg _ (fun x => x.1 == q) (p, v) _ hq, find?_key_filter_ne l p q h]

theorem lookupA_removeA_self (l : List (String × String)) (p : String) :
    lookupA (removeA l p) p = none := by
  have h : (removeA l p).find? (fun e => e.1 == p) = none := by
    apply List.find?_eq_none.mpr
    intro a ha
    have h2 := (List.mem_filter.mp ha).2
    simpa using h2
  rw [lookupA, h]
  rfl

theorem lookupA_removeA_ne (l : List (String × String)) (p q : String) (h : q ≠ p) :
    lookupA (removeA l q) p = lookupA l p := by
  unfold lookupA removeA
  rw [find?_key_filter_ne l q p (Ne.symm h)]

theorem removeA_idem (l : List (String × String)) (p : String) :
    removeA (removeA l p) p = removeA l p := by
  apply List.filter_eq_self.mpr
  intro a ha
  exact (List.mem_filter.mp ha).2

theorem removeA_setA_self (l : List (String × String)) (p v : String) :
    removeA (setA l p v) p = removeA l p := by
  rw [setA_eq_cons_removeA]
  have h1 : removeA ((p, v) :: removeA l p) p = removeA (removeA l p) p := by
    unfold removeA
    have hn : ¬ ((fun (x : String × String) => x.1 != p) (p, v)) = true := by simp
    rw [@List.filter_cons_of_neg _ (fun x => x.1 != p) (p, v) _ hn]
  rw [h1, removeA_idem]

theorem removeA_eq_self_of_lookup_none (l : List (String × String)) (p : String)
    (h : lookupA l p = none) : removeA l p = l := by
  have hfind : l.find? (fun e => e.1 == p) = none := by
    cases hf : l.find? (fun e => e.1 == p) with
    | none => rfl
    | some e => rw [lookupA, hf] at h; simp at h
  apply List.filter_eq_self.mpr
  intro a ha
  have h2 := List.find?_eq_none.mp hfind a ha
  simpa using h2

theorem contains_insertD (l : List String) (a : String) :
    (insertD l a).contains a = true := by
  unfold insertD
  by_cases h : l.contains a = true
  · rw [if_pos h]
    exact h
  · rw [if_neg h]
    simp [List.contains_cons]

theorem insertD_idem (l : List String) (a : String) :
    insertD (insertD l a) a = insertD l a := by
  by_cases h : l.contains a = true
  · have h1 : insertD l a = l := by unfold insertD; rw [if_pos h]
    rw [h1]
    unfold insertD
    rw [if_pos h]
  · have h1 : insertD l a = a :: l := by unfold insertD; rw [if_neg h]
    rw [h1]
    unfold insertD
    rw [if_pos (by simp [List.contains_cons])]

/-! ### Script-cache lemmas -/

/-- The hash-versioned body path and the current-pointer path never
coincide: the body path has an extra underscore segment. -/
theorem bodyPath_ne_linkPath (check : CheckInfo) :
    bodyPathOf check ≠ linkPathOf check.name := by
  intro h
  have hd := congrArg String.data h
  simp only [bodyPathOf, linkPathOf, String.data_append] at hd
  have hc := congrArg (List.count '_') hd
  simp only [List.count_append] at hc
  have h1 : List.count '_' ("/").data = 0 := by decide
  have h2 : List.count '_' ("_").data = 1 := by decide
  have h3 : List.count '_' (".sh").data = 0 := by decide
  have h4 : List.count '_' ("/current.sh").data = 0 := by decide
  rw [h1, h2, h3, h4] at hc
  omega

/-- Field-by-field description of the final state of
`_save_check_script`: the body is written only when absent, whatever
occupied the pointer path is gone, and the pointer is a fresh symlink
to the body path. -/
theorem saveCheckScript_fields (fs : CacheFS) (check : CheckInfo) :
    (saveCheckScript fs check).files =
        removeA (if (lookupA fs.files (bodyPathOf check)).isSome then fs.files
          else setA fs.files (bodyPathOf check) check.script_content)
          (linkPathOf check.name) ∧
      (saveCheckScript fs check).links =
        setA (removeA fs.links (linkPathOf check.name)) (linkPathOf check.name)
          (bodyPathOf check) ∧
      (saveCheckScript fs check).dirs = insertD fs.dirs (scriptDirOf check.name) ∧
      (saveCheckScript fs check).execs =
        (if (lookupA fs.files (bodyPathOf check)).isSome then fs.execs
          else insertD fs.execs (bodyPathOf check)) := by
  have hne : bodyPathOf check ≠ linkPathOf check.name := bodyPath_ne_linkPath check
  have hset := lookupA_setA_ne fs.files (bodyPathOf check) check.script_content
    (linkPathOf check.name) (Ne.symm hne)
  by_cases h1 : (lookupA fs.files (bodyPathOf check)).isSome = true
  · by_cases h2 : (lookupA fs.links (linkPathOf check.name)).isSome = true
    · simp [saveCheckScript, saveCheckOps, applyOp, CacheFS.fileExistsB, CacheFS.isSymlinkB,
        h1, h2]
    · have h2n : lookupA fs.links (linkPathOf check.name) = none :=
        Option.not_isSome_iff_eq_none.mp h2
      have hrl : removeA fs.links (linkPathOf check.name) = fs.links :=
        removeA_eq_self_of_lookup_none fs.links (linkPathOf check.name) h2n
      by_cases h3 : (lookupA fs.files (linkPathOf check.name)).isSome = true
      · simp [saveCheckScript, saveCheckOps, applyOp, CacheFS.fileExistsB, CacheFS.isSymlinkB,
          h1, h2, h3, hrl]
      · have h3n : lookupA fs.files (linkPathOf check.name) = none :=
          Option.not_isSome_iff_eq_none.mp h3
        have hrf : removeA fs.files (linkPathOf check.name) = fs.files :=
          removeA_eq_self_of_lookup_none fs.files (linkPathOf check.name) h3n
        simp [saveCheckScript, saveCheckOps, applyOp, CacheFS.fileExistsB, CacheFS.isSymlinkB,
          h1, h2, h3, hrl, hrf]
  · by_cases h2 : (lookupA fs.links (linkPathOf check.name)).isSome = true
    · simp [saveCheckScript, saveCheckOps, applyOp, CacheFS.fileExistsB, CacheFS.isSymlinkB,
        h1, h2, hset]
    · have h2n : lookupA fs.links (linkPathOf check.name) = none :=
        Option.not_isSome_iff_eq_none.mp h2
      have hrl : removeA fs.links (linkPathOf check.name) = fs.links :=
        removeA_eq_self_of_lookup_none fs.links (linkPathOf check.name) h2n
      by_cases h3 : (lookupA fs.files (linkPathOf check.name)).isSome = true
      · simp [saveCheckScript, saveCheckOps, applyOp, CacheFS.fileExistsB, CacheFS.isSymlinkB,
          h1, h2, h3, hset, hrl]
      · have h3n : lookupA fs.files (linkPathOf check.name) = none :=
          Option.not_isSome_iff_eq_none.mp h3
        have hrs : removeA (setA fs.files (bodyPathOf check) check.script_content)
            (linkPathOf check.name) =
              setA fs.files (bodyPathOf check) check.script_content := by
          apply removeA_eq_self_of_lookup_none
          rw [hset]
          exact h3n
        simp [saveCheckScript, saveCheckOps, applyOp, CacheFS.fileExistsB, CacheFS.isSymlinkB,
          h1, h2, h3, hset, hrl, hrs]

/-- After a save, the body file for the (name, hash) pair exists. -/
theorem fileExistsB_saveCheckScript_body (fs : CacheFS) (check : CheckInfo) :
    (saveCheckScript fs check).fileExistsB (bodyPathOf check) = true := by
  have hne := bodyPath_ne_linkPath check
  have hf := (saveCheckScript_fields fs check).1
  rw [CacheFS.fileExistsB, hf, lookupA_removeA_ne _ _ _ (Ne.symm hne)]
  by_cases h1 : (lookupA fs.files (bodyPathOf check)).isSome = true
  · rw [if_pos h1]
    exact h1
  · rw [if_neg h1, lookupA_setA_self]
    rfl

/-- After a save, the current pointer is a symlink to the body file. -/
theorem saveCheckScript_pointer (fs : CacheFS) (check : CheckInfo) :
    lookupA (saveCheckScript fs check).links (linkPathOf check.name) =
      some (bodyPathOf check) := by
  rw [(saveCheckScript_fields fs check).2.1, lookupA_setA_self]

/-- Saving the same check twice reaches a fixed point: the second call
leaves the filesystem exactly as the first left it. -/
theorem saveCheckScript_idem (fs : CacheFS) (check : CheckInfo) :
    saveCheckScript (saveCheckScript fs check) check = saveCheckScript fs check := by
  have hne := bodyPath_ne_linkPath check
  obtain ⟨hf1, hl1, hd1, he1⟩ := saveCheckScript_fields fs check
  obtain ⟨hf2, hl2, hd2, he2⟩ := saveCheckScript_fields (saveCheckScript fs check) check
  have hbody : (lookupA (saveCheckScript fs check).files (bodyPathOf check)).isSome = true :=
    fileExistsB_saveCheckScript_body fs check
  apply CacheFS.ext
  · rw [hf2, if_pos hbody, hf1, removeA_idem]
  · rw [hl2, hl1, removeA_setA_self, removeA_idem, ← hl1]
  · rw [hd2, hd1, insertD_idem, ← hd1]
  · rw [he2, if_pos hbody]

/-- The second save of the same check issues no body write: the
existence check precedes the write. -/
theorem saveCheckOps_no_body_write (fs : CacheFS) (check : CheckInfo)
    (h : fs.fileExistsB (bodyPathOf check) = true) :
    (saveCheckOps fs check).countP isBodyWrite = 0 := by
  have h1 : (lookupA fs.files (bodyPathOf check)).isSome = true := h
  have hops :
      saveCheckOps fs check =
        FsOp.mkdirP (scriptDirOf check.name) ::
          (if (lookupA fs.links (linkPathOf check.name)).isSome = true then
              [FsOp.unlink (linkPathOf check.name)]
            else if (lookupA fs.files (linkPathOf check.name)).isSome = true then
              [FsOp.unlink (linkPathOf check.name)]
            else []) ++
          [FsOp.symlinkTo (linkPathOf check.name) (bodyPathOf check)] := by
    simp only [saveCheckOps, applyOp, CacheFS.fileExistsB, CacheFS.isSymlinkB, h1, if_true,
      List.foldl_nil]
    rfl
  rw [hops]
  by_cases h2 : (lookupA fs.links (linkPathOf check.name)).isSome = true
  · rw [if_pos h2]
    simp [List.countP_cons, isBodyWrite]
  · rw [if_neg h2]
    by_cases h3 : (lookupA fs.files (linkPathOf check.name)).isSome = true
    · rw [if_pos h3]
      simp [List.countP_cons, isBodyWrite]
    · rw [if_neg h3]
      simp [List.countP_cons, isBodyWrite]

theorem countP_key_removeA_ne (l : List (String × String)) (p q : String) (h : q ≠ p) :
    (removeA l q).countP (fun e => e.1 == p) = l.countP (fun e => e.1 == p) := by
  rw [removeA, List.countP_filter]
  apply List.countP_congr
  intro a _
  by_cases hap : a.1 = p
  · simp [hap, Ne.symm h]
  · simp [hap]

theorem countP_key_setA_self (l : List (String × String)) (p v : String) :
    (setA l p v).countP (fun e => e.1 == p) = 1 := by
  rw [setA_eq_cons_removeA, List.countP_cons]
  have h0 : (removeA l p).countP (fun e => e.1 == p) = 0 := by
    apply List.countP_eq_zero.mpr
    intro a ha
    have h2 := (List.mem_filter.mp ha).2
    simpa using h2
  simp [h0]

theorem countP_key_pos_of_lookup_some (l : List (String × String)) (p v : String)
    (h : lookupA l p = some v) : 1 ≤ l.countP (fun e => e.1 == p) := by
  obtain ⟨e, he⟩ : ∃ e, l.find? (fun x => x.1 == p) = some e := by
    cases hf : l.find? (fun x => x.1 == p) with
    | none => rw [lookupA, hf] at h; simp at h
    | some e => exact ⟨e, rfl⟩
  have hp := @List.find?_some _ (fun (x : String × String) => x.1 == p) e l he
  exact List.countP_pos_iff.mpr ⟨e, List.mem_of_find?_eq_some he, hp⟩

/-- A save leaves exactly one body file for the pair, provided the
initial state held at most one. -/
theorem countBodyFiles_saveCheckScript (fs : CacheFS) (check : CheckInfo)
    (h : countBodyFiles fs check ≤ 1) :
    countBodyFiles (saveCheckScript fs check) check = 1 := by
  have hne := bodyPath_ne_linkPath check
  rw [countBodyFiles, (saveCheckScript_fields fs check).1,
    countP_key_removeA_ne _ _ _ (Ne.symm hne)]
  by_cases h1 : (lookupA fs.files (bodyPathOf check)).isSome = true
  · rw [if_pos h1]
    obtain ⟨v, hv⟩ := Option.isSome_iff_exists.mp h1
    have hpos := countP_key_pos_of_lookup_some fs.files (bodyPathOf check) v hv
    rw [countBodyFiles] at h
    omega
  · rw [if_neg h1, countP_key_setA_self]

/-- When a pointer already exists, the save trace passes through a state
in which no pointer exists at all: the unlink happens strictly before
the new symlink is created. -/
theorem saveCheckStates_gap (fs : CacheFS) (check : CheckInfo)
    (h : fs.pointerExistsB (linkPathOf check.name) = true) :
    (saveCheckStates fs check).any
      (fun s => !(s.pointerExistsB (linkPathOf check.name))) = true := by
  have hne := bodyPath_ne_linkPath check
  have hset := lookupA_setA_ne fs.files (bodyPathOf check) check.script_content
    (linkPathOf check.name) (Ne.symm hne)
  by_cases h1 : (lookupA fs.files (bodyPathOf check)).isSome = true
  · by_cases h2 : (lookupA fs.links (linkPathOf check.name)).isSome = true
    · simp [saveCheckStates, saveCheckOps, applyOp, CacheFS.pointerExistsB, CacheFS.isSymlinkB,
        CacheFS.fileExistsB, h1, h2, List.scanl_cons, List.scanl_nil, List.any_cons,
        lookupA_removeA_self]
    · have h3 : (lookupA fs.files (linkPathOf check.name)).isSome = true := by
        simp [CacheFS.pointerExistsB, CacheFS.isSymlinkB, CacheFS.fileExistsB, h2] at h
        exact h
      simp [saveCheckStates, saveCheckOps, applyOp, CacheFS.pointerExistsB, CacheFS.isSymlinkB,
        CacheFS.fileExistsB, h1, h2, h3, List.scanl_cons, List.scanl_nil, List.any_cons,
        lookupA_removeA_self]
  · by_cases h2 : (lookupA fs.links (linkPathOf check.name)).isSome = true
    · simp [saveCheckStates, saveCheckOps, applyOp, CacheFS.pointerExistsB, CacheFS.isSymlinkB,
        CacheFS.fileExistsB, h1, h2, hset, List.scanl_cons, List.scanl_nil, List.any_cons,
        lookupA_removeA_self]
    · have h3 : (lookupA fs.files (linkPathOf check.name)).isSome = true := by
        simp [CacheFS.pointerExistsB, CacheFS.isSymlinkB, CacheFS.fileExistsB, h2] at h
        exact h
      simp [saveCheckStates, saveCheckOps, applyOp, CacheFS.pointerExistsB, CacheFS.isSymlinkB,
        CacheFS.fileExistsB, h1, h2, h3, hset, List.scanl_cons, List.scanl_nil, List.any_cons,
        lookupA_removeA_self]

/-- When a pointer already exists, the operation sequence includes an
explicit unlink of the pointer path: the update is delete-then-recreate,
not an atomic replacement. -/
theorem saveCheckOps_unlink_mem (fs : CacheFS) (check : CheckInfo)
    (h : fs.pointerExistsB (linkPathOf check.name) = true) :
    FsOp.unlink (linkPathOf check.name) ∈ saveCheckOps fs check := by
  have hne := bodyPath_ne_linkPath check
  have hset := lookupA_setA_ne fs.files (bodyPathOf check) check.script_content
    (linkPathOf check.name) (Ne.symm hne)
  by_cases h1 : (lookupA fs.files (bodyPathOf check)).isSome = true
  · by_cases h2 : (lookupA fs.links (linkPathOf check.name)).isSome = true
    · simp [saveCheckOps, applyOp, CacheFS.isSymlinkB, CacheFS.fileExistsB, h1, h2]
    · have h3 : (lookupA fs.files (linkPathOf check.name)).isSome = true := by
        simp [CacheFS.pointerExistsB, CacheFS.isSymlinkB, CacheFS.fileExistsB, h2] at h
        exact h
      simp [saveCheckOps, applyOp, CacheFS.isSymlinkB, CacheFS.fileExistsB, h1, h2, h3]
  · by_cases h2 : (lookupA fs.links (linkPathOf check.name)).isSome = true
    · simp [saveCheckOps, applyOp, CacheFS.isSymlinkB, CacheFS.fileExistsB, h1, h2, hset]
    · have h3 : (lookupA fs.files (linkPathOf check.name)).isSome = true := by
        simp [CacheFS.pointerExistsB, CacheFS.isSymlinkB, CacheFS.fileExistsB, h2] at h
        exact h
      simp [saveCheckOps, applyOp, CacheFS.isSymlinkB, CacheFS.fileExistsB, h1, h2, h3, hset]

/-! ### Executor lemmas -/

/-- Any failed outcome yields the fixed-shape error metric. -/
theorem metricContentOf_failure (checkName : String) (o : ExecOutcome)
    (h : (resultOf checkName o).success = false) :
    metricContentOf checkName o = errorMetric checkName := by
  cases o with
  | exited code out err =>
    by_cases hc : (code == 0) = true
    · rw [resultOf] at h
      simp [hc] at h
    · rw [metricContentOf, if_neg hc]
  | timedOut => rfl
  | spawnFailed msg => rfl

/-! ### Run-loop lemmas -/

theorem countP_bool_split {α : Type} (p : α → Bool) (l : List α) :
    l.countP p + l.countP (fun a => !(p a)) = l.length := by
  induction l with
  | nil => rfl
  | cons a l ih =>
    rw [List.countP_cons, List.countP_cons, List.length_cons]
    by_cases h : p a = true <;> simp [h] <;> omega

/-- When every save succeeds, the loop visits every check in order,
counts successes and failures, and never aborts. -/
theorem runLoop_ok (env : RunEnv) (checks : List CheckInfo) :
    ∀ st : LoopState, st.aborted = none →
      (∀ c ∈ checks, env.saveError c.name = none) →
      (runLoop env checks st).aborted = none ∧
      (runLoop env checks st).succCount = st.succCount + checks.countP (checkSucceeds env) ∧
      (runLoop env checks st).failedCount =
        st.failedCount + checks.countP (fun c => !(checkSucceeds env c)) ∧
      (runLoop env checks st).executed = st.executed ++ checks.map (fun c => c.name) := by
  induction checks with
  | nil =>
    intro st h1 _
    simp [runLoop, h1]
  | cons c rest ih =>
    intro st h1 hsave
    have hc : env.saveError c.name = none := hsave c (by simp)
    simp only [runLoop, hc]
    obtain ⟨a, b, d, e⟩ := ih (runLoopStep env c st) rfl (fun x hx => hsave x (by simp [hx]))
    refine ⟨a, ?_, ?_, ?_⟩
    · rw [b, List.countP_cons]
      simp only [checkSucceeds, runLoopStep]
      by_cases hb : (executeCheck c.name (linkPathOf c.name) c.config (env.proc c.name)).1.success
        = true <;> simp [hb] <;> omega
    · rw [d, List.countP_cons]
      simp only [checkSucceeds, runLoopStep]
      by_cases hb : (executeCheck c.name (linkPathOf c.name) c.config (env.proc c.name)).1.success
        = true <;> simp [hb] <;> omega
    · rw [e]
      simp [runLoopStep]

/-- A save error mid-loop stops the loop at that check: the accumulator
of the prefix is kept, flagged aborted, and nothing further runs. -/
theorem runLoop_abort (env : RunEnv) (c : CheckInfo) (rest : List CheckInfo) (m : String)
    (hc : env.saveError c.name = some m) :
    ∀ (pre : List CheckInfo), (∀ p ∈ pre, env.saveError p.name = none) →
      ∀ st : LoopState,
        runLoop env (pre ++ c :: rest) st = { runLoop env pre st with aborted := some m } := by
  intro pre
  induction pre with
  | nil =>
    intro _ st
    rw [List.nil_append]
    simp only [runLoop, hc]
  | cons p pre' ih =>
    intro hpre st
    have hp : env.saveError p.name = none := hpre p (by simp)
    rw [List.cons_append]
    simp only [runLoop, hp]
    exact ih (fun x hx => hpre x (by simp [hx])) (runLoopStep env p st)

/-! ## Claims -/

/-- C1, counterexample: starting from a state where check `chk` has a
current pointer, `_save_check_script` issues an explicit unlink of the
pointer path, and its trace passes through an intermediate state in
which the pointer does not exist — the update is not an atomic
replacement. -/
theorem save_pointer_update_not_atomic_cex :
    fsWithPointer.pointerExistsB (linkPathOf chkGamma.name) = true ∧
    FsOp.unlink (linkPathOf chkGamma.name) ∈ saveCheckOps fsWithPointer chkGamma ∧
    (saveCheckStates fsWithPointer chkGamma).any
      (fun s => !(s.pointerExistsB (linkPathOf chkGamma.name))) = true := by
  refine ⟨by decide, by decide, by decide⟩

/-- C1, amended: whenever a current pointer exists before the call,
`_save_check_script` updates it by delete-then-recreate — the operation
sequence unlinks the pointer path, the trace contains an intermediate
state in which no pointer exists, and only afterwards is a new symlink
to the body file created, which is where the operation ends. -/
theorem save_pointer_update_delete_then_recreate (fs : CacheFS) (check : CheckInfo)
    (h : fs.pointerExistsB (linkPathOf check.name) = true) :
    FsOp.unlink (linkPathOf check.name) ∈ saveCheckOps fs check ∧
    (saveCheckStates fs check).any
      (fun s => !(s.pointerExistsB (linkPathOf check.name))) = true ∧
    lookupA (saveCheckScript fs check).links (linkPathOf check.name) =
      some (bodyPathOf check) :=
  ⟨saveCheckOps_unlink_mem fs check h, saveCheckStates_gap fs check h,
    saveCheckScript_pointer fs check⟩

/-- C1, witness for the amended theorem at a concrete state. -/
theorem save_pointer_update_delete_then_recreate_witness :
    fsWithPointer.pointerExistsB (linkPathOf chkGamma.name) = true ∧
    (FsOp.unlink (linkPathOf chkGamma.name) ∈ saveCheckOps fsWithPointer chkGamma ∧
      (saveCheckStates fsWithPointer chkGamma).any
        (fun s => !(s.pointerExistsB (linkPathOf chkGamma.name))) = true ∧
      lookupA (saveCheckScript fsWithPointer chkGamma).links (linkPathOf chkGamma.name) =
        some (bodyPathOf chkGamma)) :=
  ⟨by decide,
    save_pointer_update_delete_then_recreate fsWithPointer chkGamma (by decide)⟩

/-- C7: saving the same (name, content hash, body) twice is idempotent —
the second call reproduces the state of the first exactly, exactly one
body file exists for the pair afterwards, and the second call issues no
body write because the existence check precedes the write. -/
theorem save_check_script_idempotent (fs : CacheFS) (check : CheckInfo)
    (h : countBodyFiles fs check ≤ 1) :
    saveCheckScript (saveCheckScript fs check) check = saveCheckScript fs check ∧
    countBodyFiles (saveCheckScript (saveCheckScript fs check) check) check = 1 ∧
    (saveCheckOps (saveCheckScript fs check) check).countP isBodyWrite = 0 := by
  refine ⟨saveCheckScript_idem fs check, ?_,
    saveCheckOps_no_body_write _ check (fileExistsB_saveCheckScript_body fs check)⟩
  rw [saveCheckScript_idem fs check]
  exact countBodyFiles_saveCheckScript fs check h

/-- C7, witness at the empty filesystem. -/
theorem save_check_script_idempotent_witness :
    countBodyFiles fsEmpty chkGamma ≤ 1 ∧
    (saveCheckScript (saveCheckScript fsEmpty chkGamma) chkGamma =
        saveCheckScript fsEmpty chkGamma ∧
      countBodyFiles (saveCheckScript (saveCheckScript fsEmpty chkGamma) chkGamma)
        chkGamma = 1 ∧
      (saveCheckOps (saveCheckScript fsEmpty chkGamma) chkGamma).countP isBodyWrite = 0) :=
  ⟨by decide, save_check_script_idempotent fsEmpty chkGamma (by decide)⟩

/-- C6: every failed execution (nonzero exit, timeout, spawn failure)
produces exactly the fixed-shape error metric for the check's name as
metric file content, so any two failing outcomes — whatever the child
wrote to stdout or stderr — yield identical content. -/
theorem failed_check_metric_fixed_shape (checkName : String) (o o2 : ExecOutcome)
    (h : (resultOf checkName o).success = false)
    (h2 : (resultOf checkName o2).success = false) :
    metricContentOf checkName o = errorMetric checkName ∧
    metricContentOf checkName o = metricContentOf checkName o2 :=
  ⟨metricContentOf_failure checkName o h,
    (metricContentOf_failure checkName o h).trans
      (metricContentOf_failure checkName o2 h2).symm⟩

/-- C6, witness: a nonzero exit with garbage output and a timeout give
the same fixed error metric. -/
theorem failed_check_metric_fixed_shape_witness :
    (resultOf "beta" (ExecOutcome.exited 2 "garbage" "boom")).success = false ∧
    (resultOf "beta" ExecOutcome.timedOut).success = false ∧
    (metricContentOf "beta" (ExecOutcome.exited 2 "garbage" "boom") = errorMetric "beta" ∧
      metricContentOf "beta" (ExecOutcome.exited 2 "garbage" "boom") =
        metricContentOf "beta" ExecOutcome.timedOut) :=
  ⟨by decide, by decide,
    failed_check_metric_fixed_shape "beta" (ExecOutcome.exited 2 "garbage" "boom")
      ExecOutcome.timedOut (by decide) (by decide)⟩

/-- C8: the child process is invoked with the script path as its only
argument-vector entry and the JSON-serialized config as its standard
input; exit code 0 is the sole success signal; and on exit 0 the
child's stdout is the metric file content verbatim. -/
theorem execute_check_protocol (scriptPath checkName out err : String)
    (config : List (String × String)) (o : ExecOutcome) :
    (execInvocation scriptPath config).argv = [scriptPath] ∧
    (execInvocation scriptPath config).stdin = jsonDumps config ∧
    ((resultOf checkName o).success = true ↔
      ∃ sout serr, o = ExecOutcome.exited 0 sout serr) ∧
    metricContentOf checkName (ExecOutcome.exited 0 out err) = out := by
  refine ⟨rfl, rfl, ?_, rfl⟩
  constructor
  · intro hs
    cases o with
    | exited code sout serr =>
      by_cases hcode : (code == 0) = true
      · exact ⟨sout, serr, by rw [eq_of_beq hcode]⟩
      · rw [resultOf, if_neg hcode] at hs
        simp at hs
    | timedOut =>
      rw [resultOf] at hs
      simp at hs
    | spawnFailed msg =>
      rw [resultOf] at hs
      simp at hs
  · rintro ⟨sout, serr, rfl⟩
    rfl

/-- C8, witness at a concrete invocation and outcome. -/
theorem execute_check_protocol_witness :
    (execInvocation "chk/current.sh" [("k", "v")]).argv = ["chk/current.sh"] ∧
    (execInvocation "chk/current.sh" [("k", "v")]).stdin = jsonDumps [("k", "v")] ∧
    metricContentOf "alpha" (ExecOutcome.exited 0 "up 1\n" "") = "up 1\n" := by
  have h := execute_check_protocol "chk/current.sh" "alpha" "up 1\n" ""
    [("k", "v")] (ExecOutcome.exited 0 "up 1\n" "")
  exact ⟨h.1, h.2.1, h.2.2.2⟩

/-- C2, counterexample: with a successful fetch of two checks and a disk
write error while persisting the first one's script, the run aborts —
no check executes, no summary is published, and the error escapes
`run` — instead of being converted into that check's failed result. -/
theorem persist_error_aborts_run_cex :
    envPersistFail.fetched = some [chkAlpha, chkBeta] ∧
    envPersistFail.saveError chkAlpha.name = some "disk full" ∧
    (run envPersistFail).summary = none ∧
    (run envPersistFail).executedChecks = [] ∧
    (run envPersistFail).exitResult = Except.error "disk full" := by
  refine ⟨rfl, by decide, by decide, by decide, by decide⟩

/-- C2, amended: a disk write error while persisting a check's script
propagates out of `run` uncaught — the run aborts at that check, the
checks after it never execute, no run summary is published, and the
process exits with status 1. Only the checks before the failing one
were executed. -/
theorem persist_error_aborts_run (env : RunEnv) (pre : List CheckInfo) (c : CheckInfo)
    (rest : List CheckInfo) (m : String)
    (hurl : env.configServerUrl ≠ "")
    (hf : env.fetched = some (pre ++ c :: rest))
    (hpre : ∀ p ∈ pre, env.saveError p.name = none)
    (hc : env.saveError c.name = some m) :
    (run env).exitResult = Except.error m ∧
    (run env).summary = none ∧
    (run env).executedChecks = pre.map (fun p => p.name) ∧
    processExit (run env) = 1 := by
  have hbeq : (env.configServerUrl == "") = false := beq_eq_false_iff_ne.mpr hurl
  have habort := runLoop_abort env c rest m hc pre hpre ⟨0, 0, [], [], none⟩
  have hex := (runLoop_ok env pre ⟨0, 0, [], [], none⟩ rfl hpre).2.2.2
  simp only [run, hbeq, hf, habort, hex, processExit]
  simp

/-- C2, witness for the amended theorem at a concrete run. -/
theorem persist_error_aborts_run_witness :
    (run envPersistFail).exitResult = Except.error "disk full" ∧
    (run envPersistFail).summary = none ∧
    processExit (run envPersistFail) = 1 := by
  have h := persist_error_aborts_run envPersistFail [] chkAlpha [chkBeta] "disk full"
    (by decide) rfl (by decide) (by decide)
  exact ⟨h.1, h.2.1, h.2.2.2⟩

/-- C3: when the fetch step fails, no check executes, the published
summary carries fetch status 0 and all-zero counts, and the run returns
exit status 1. -/
theorem fetch_failure_short_circuit (env : RunEnv)
    (hurl : env.configServerUrl ≠ "") (hf : env.fetched = none) :
    (run env).executedChecks = [] ∧
    (run env).summary = some ⟨0, 0, 0, 0, env.duration⟩ ∧
    lookupA (run env).metricFiles statusFileName =
      some (renderStatusMetrics 0 env.timestamp env.duration 0 0 0) ∧
    processExit (run env) = 1 := by
  have hbeq : (env.configServerUrl == "") = false := beq_eq_false_iff_ne.mpr hurl
  simp [run, hbeq, hf, processExit, lookupA, List.find?]

/-- C3, witness at a concrete failing fetch. -/
theorem fetch_failure_short_circuit_witness :
    (run envFetchFail).executedChecks = [] ∧
    (run envFetchFail).summary = some ⟨0, 0, 0, 0, 7⟩ ∧
    processExit (run envFetchFail) = 1 := by
  have h := fetch_failure_short_circuit envFetchFail (by decide) rfl
  exact ⟨h.1, h.2.1, h.2.2.2⟩

/-- C4: for a run of N fetched definitions in which every script
persists, the published summary counts exactly the S definitions whose
execution succeeded and the F that failed, with S + F = N. -/
theorem summary_aggregation_correct (env : RunEnv) (checks : List CheckInfo)
    (hurl : env.configServerUrl ≠ "") (hf : env.fetched = some checks)
    (hsave : ∀ c ∈ checks, env.saveError c.name = none) :
    (run env).summary =
      some ⟨1, checks.length, checks.countP (checkSucceeds env),
        checks.countP (fun c => !(checkSucceeds env c)), env.duration⟩ ∧
    checks.countP (checkSucceeds env) +
        checks.countP (fun c => !(checkSucceeds env c)) = checks.length := by
  have hbeq : (env.configServerUrl == "") = false := beq_eq_false_iff_ne.mpr hurl
  obtain ⟨ha, hs, hfc, _⟩ := runLoop_ok env checks ⟨0, 0, [], [], none⟩ rfl hsave
  refine ⟨?_, countP_bool_split (checkSucceeds env) checks⟩
  simp only [run, hbeq, hf, ha, hs, hfc]
  simp

/-- C4, witness: two checks, one succeeding and one failing. -/
theorem summary_aggregation_correct_witness :
    (run envTwoChecks).summary = some ⟨1, 2, 1, 1, 7⟩ := by
  have h := summary_aggregation_correct envTwoChecks [chkAlpha, chkBeta]
    (by decide) rfl (by decide)
  have hs : [chkAlpha, chkBeta].countP (checkSucceeds envTwoChecks) = 1 := by decide
  have hfc : [chkAlpha, chkBeta].countP
      (fun c => !(checkSucceeds envTwoChecks c)) = 1 := by decide
  rw [hs, hfc] at h
  exact h.1

/-- C5, counterexample: a run whose fetch step succeeded but whose exit
status is 1 — the persist error aborts the interpreter — refuting
"exit status 0 whenever the fetch step succeeded". -/
theorem exit_status_fetch_success_cex :
    envPersistFail.fetched = some [chkAlpha, chkBeta] ∧
    processExit (run envPersistFail) = 1 := by
  refine ⟨rfl, by decide⟩

/-- C5, amended: the exit status is 0 when the fetch step succeeded and
every check's script persisted without error — independently of the
individual check outcomes — and 1 when the fetch step failed; an
uncaught persist error instead aborts the run with exit status 1. -/
theorem exit_status_amended (env : RunEnv) (checks : List CheckInfo)
    (hurl : env.configServerUrl ≠ "") :
    (env.fetched = some checks → (∀ c ∈ checks, env.saveError c.name = none) →
      processExit (run env) = 0) ∧
    (env.fetched = none → processExit (run env) = 1) := by
  have hbeq : (env.configServerUrl == "") = false := beq_eq_false_iff_ne.mpr hurl
  constructor
  · intro hf hsave
    obtain ⟨ha, _, _, _⟩ := runLoop_ok env checks ⟨0, 0, [], [], none⟩ rfl hsave
    simp only [run, hbeq, hf, ha, processExit]
    simp
  · intro hf
    simp [run, hbeq, hf, processExit]

/-- C5, witness: a run with one failing check still exits 0; a failing
fetch exits 1. -/
theorem exit_status_amended_witness :
    processExit (run envTwoChecks) = 0 ∧ processExit (run envFetchFail) = 1 :=
  ⟨(exit_status_amended envTwoChecks [chkAlpha, chkBeta] (by decide)).1 rfl (by decide),
    (exit_status_amended envFetchFail [] (by decide)).2 rfl⟩

/-- C9: the fetcher applies defensive defaults per record — a missing
`config` becomes the empty mapping and missing `name`, `script_content`
or `script_hash` become empty strings — and converts every record,
rejecting none. -/
theorem fetch_defensive_defaults (items : List RawItem) (item : RawItem) :
    (fetchParseChecks items).length = items.length ∧
    (item.name = none → (parseCheckItem item).name = "") ∧
    (item.script_content = none → (parseCheckItem item).script_content = "") ∧
    (item.script_hash = none → (parseCheckItem item).script_hash = "") ∧
    (item.config = none → (parseCheckItem item).config = []) := by
  refine ⟨List.length_map items parseCheckItem, ?_, ?_, ?_, ?_⟩
  all_goals intro h
  all_goals simp [parseCheckItem, h]

/-- C9, witness at a record with every field missing. -/
theorem fetch_defensive_defaults_witness :
    (fetchParseChecks [⟨none, none, none, none⟩]).length = 1 ∧
    (parseCheckItem ⟨none, none, none, none⟩).name = "" ∧
    (parseCheckItem ⟨none, none, none, none⟩).script_content = "" ∧
    (parseCheckItem ⟨none, none, none, none⟩).script_hash = "" ∧
    (parseCheckItem ⟨none, none, none, none⟩).config = [] := by
  obtain ⟨a, b, c, d, e⟩ :=
    fetch_defensive_defaults [⟨none, none, none, none⟩] ⟨none, none, none, none⟩
  exact ⟨a, b rfl, c rfl, d rfl, e rfl⟩

/-- C10: when the config-server URL is empty after consulting the flag,
environment and config file, `run` publishes an all-zero summary with
duration 0 without attempting any fetch or executing any check, and
returns exit status 1. -/
theorem no_config_url_short_circuit (env : RunEnv) (givenUrl : String)
    (fileLines : List String)
    (henv : env.configServerUrl = loadConfig givenUrl fileLines)
    (hload : loadConfig givenUrl fileLines = "") :
    (run env).fetchAttempted = false ∧
    (run env).executedChecks = [] ∧
    (run env).summary = some ⟨0, 0, 0, 0, 0⟩ ∧
    lookupA (run env).metricFiles statusFileName =
      some (renderStatusMetrics 0 env.timestamp 0 0 0 0) ∧
    processExit (run env) = 1 := by
  have hurl : env.configServerUrl = "" := henv.trans hload
  simp [run, hurl, processExit, lookupA, List.find?]

/-- C10, witness at a concrete environment with no URL anywhere. -/
theorem no_config_url_short_circuit_witness :
    (run envNoUrl).fetchAttempted = false ∧
    (run envNoUrl).summary = some ⟨0, 0, 0, 0, 0⟩ ∧
    processExit (run envNoUrl) = 1 := by
  have h := no_config_url_short_circuit envNoUrl "" [] rfl (by decide)
  exact ⟨h.1, h.2.2.1, h.2.2.2.2⟩

end Aami
